import Mathlib

/-!
Verification of the purser wallet library's signing request
normalization-and-dispatch layer.

The embedding follows the two documents of
`src/src/software/staticMethods.js` (the software-path static methods and
the hardware-path static methods) together with the unit tests under
`src/unnamed/`.  Helper modules of the repository that are not present
under `src/` (core validators, normalizers, payload templates, messages,
defaults) are modelled from the specification; each such definition's doc
comment starts with `Modelled from the spec:`.
-/

/- ### Hexadecimal machinery -/

/-- Numeric value of one hexadecimal character (both cases), `none` for a
non-hex character.  Used to state the value-preservation properties of the
hex normalizers. -/
def hexCharVal (c : Char) : Option Nat :=
  if 48 ≤ c.toNat ∧ c.toNat ≤ 57 then some (c.toNat - 48)
  else if 97 ≤ c.toNat ∧ c.toNat ≤ 102 then some (c.toNat - 87)
  else if 65 ≤ c.toNat ∧ c.toNat ≤ 70 then some (c.toNat - 55)
  else none

/-- Big-endian hexadecimal accumulator parse, `none` on a non-hex char. -/
def parseHexFrom (acc : Nat) : List Char → Option Nat
  | [] => some acc
  | c :: rest =>
    match hexCharVal c with
    | none => none
    | some d => parseHexFrom (acc * 16 + d) rest

/-- Parse a big-endian list of hexadecimal characters to its value. -/
def parseHexList (l : List Char) : Option Nat :=
  parseHexFrom 0 l

/-- Lowercase minimal hexadecimal rendering of a natural number, as
JavaScript's `Number.prototype.toString(16)` / BN `toString(16)` produce
(`0 ↦ "0"`, no `0x` marker, no leading zeros). -/
def natToHexList (n : Nat) : List Char :=
  Nat.toDigits 16 n

/-- String form of `natToHexList`. -/
def natToHex (n : Nat) : String :=
  ⟨natToHexList n⟩

/-- Modelled from the spec: `multipleOfTwoHexValueNormalizer` (module
`./normalizers` of the hardware document, absent from src/): "pads a raw
hex string (without prefix) to even length" by a left zero. List core. -/
def multipleOfTwoHexValue (l : List Char) : List Char :=
  if l.length % 2 = 1 then '0' :: l else l

/-- Modelled from the spec: `multipleOfTwoHexValueNormalizer` on strings. -/
def multipleOfTwoHexValueNormalizer (s : String) : String :=
  ⟨multipleOfTwoHexValue s.data⟩

/-- Drop a leading `0x` marker from a character list, identity when the
list does not start with one (JavaScript `startsWith("0x") ? slice(2) : unchanged`). -/
def stripHexTag (l : List Char) : List Char :=
  if l.take 2 = ['0', 'x'] then l.drop 2 else l

/-- Modelled from the spec: digit part of `hexSequenceNormalizer` (module
`../core/normalizers`, absent from src/): the digits after removing an
existing `0x` marker, left zero-padded to even length. -/
def hexSeqBody (l : List Char) : List Char :=
  multipleOfTwoHexValue (stripHexTag l)

/-- Modelled from the spec: `hexSequenceNormalizer` "ensures `0x` prefix
and even-length hex digit count (left-pads with a zero if odd)". -/
def hexSequenceNormalizer (s : String) : String :=
  ⟨'0' :: 'x' :: hexSeqBody s.data⟩

/- ### Derivation paths -/

/-- The apostrophe character marking a hardened derivation path segment. -/
def hardenedMark : Char := Char.ofNat 39

/-- Hardened segments carry the high bit of an unsigned 32-bit index. -/
def hardenedOffset : Nat := 2 ^ 31

/-- Split a character list on a separator character. -/
def splitChar (sep : Char) : List Char → List (List Char)
  | [] => [[]]
  | c :: rest =>
    let r := splitChar sep rest
    if c = sep then [] :: r
    else
      match r with
      | [] => [[c]]
      | h :: t => (c :: h) :: t

/-- Decimal value of a digit character list (big-endian). -/
def decimalValue (l : List Char) : Nat :=
  l.foldl (fun a c => a * 10 + (c.toNat - 48)) 0

/-- A non-hardened derivation path segment: a nonempty run of decimal
digits whose value fits below the hardened bit. -/
def plainSegment (l : List Char) : Option Nat :=
  if l ≠ [] ∧ l.all Char.isDigit ∧ decimalValue l < hardenedOffset then
    some (decimalValue l)
  else none

/-- A hardened derivation path segment: a plain segment followed by the
hardened mark; its index carries the hardened offset, as produced by
bip32-path `toPathArray`. -/
def hardenedSegment (l : List Char) : Option Nat :=
  if l.getLast? = some hardenedMark then
    (plainSegment l.dropLast).map (fun v => v + hardenedOffset)
  else none

/-- Modelled from the spec: parsing of the canonical BIP32 textual grammar
`m/i'/i'/i'/i/i` (bip32-path `fromString(·, true).toPathArray()` and the
grammar accepted by `derivationPathValidator`, both absent from src/):
a leading `m`, three hardened and two plain segments, yielding the ordered
unsigned 32-bit integer path array. -/
def parseDerivationPath (s : String) : Option (List Nat) :=
  match splitChar '/' s.data with
  | [m, a, b, c, d, e] =>
    if m = ['m'] then
      match hardenedSegment a, hardenedSegment b, hardenedSegment c,
            plainSegment d, plainSegment e with
      | some a1, some b1, some c1, some d1, some e1 =>
        some [a1, b1, c1, d1, e1]
      | _, _, _, _, _ => none
    else none
  | _ => none

/-- Modelled from the spec: `derivationPathNormalizer` (module
`./normalizers`, absent from src/) "fills in default path segments if a
shorthand path is supplied".  In both hardware call sites the normalizer
runs only after `derivationPathValidator` accepted the path, so it only
ever sees full canonical paths, on which it is the identity; the shorthand
completion is unobservable here and is not modelled. -/
def derivationPathNormalizer (s : String) : String := s

/-- Modelled from the spec: `derivationPathValidator` (module
`./validators`, absent from src/) "fails if the path string does not match
the canonical `m/i'/i'/i'/i/i` grammar". -/
def derivationPathValid (s : String) : Bool :=
  (parseDerivationPath s).isSome

/- ### Scalar validators -/

/-- Modelled from the spec: `bigNumberValidator` (module `./validators`,
absent from src/) "fails if value cannot be interpreted as a non-negative
arbitrary-precision integer". -/
def bigNumberValid (v : Int) : Bool :=
  decide (0 ≤ v)

/-- Modelled from the spec: `safeIntegerValidator` (module `./validators`,
absent from src/) "fails if value is not an integer within the platform's
safe-integer range"; per the call sites' comments the value must be "a
positive, safe integer". -/
def safeIntegerValid (v : Int) : Bool :=
  decide (0 ≤ v ∧ v ≤ 2 ^ 53 - 1)

/- ### Device channel -/

/-- Decidable equality of settled results, for evaluating the embedding on
concrete inputs. -/
instance {ε α : Type} [DecidableEq ε] [DecidableEq α] :
    DecidableEq (Except ε α) := fun a b =>
  match a, b with
  | .ok x, .ok y =>
    if h : x = y then .isTrue (by rw [h])
    else .isFalse (fun hc => h (by injection hc))
  | .error x, .error y =>
    if h : x = y then .isTrue (by rw [h])
    else .isFalse (fun hc => h (by injection hc))
  | .ok _, .error _ => .isFalse (fun hc => Except.noConfusion hc)
  | .error _, .ok _ => .isFalse (fun hc => Except.noConfusion hc)

/-- An error carried by a rejected device-channel promise. -/
structure DeviceError where
  message : String
deriving DecidableEq

/-- One round-trip of the device communication channel (`payloadListener`):
the promise either resolves with a response value or rejects with an
error. -/
inductive DeviceResult (α : Type) where
  | resolve (value : α)
  | reject (error : DeviceError)
deriving DecidableEq

/-- Modelled from the spec: `STD_ERRORS.CANCEL_TX_SIGN` (module
`./defaults`, absent from src/): the defined cancellation sentinel, "a
specific error value" produced by a user-initiated cancellation on the
device. -/
def CANCEL_TX_SIGN : String := "Action cancelled by user"

/- ### Hardware payloads -/

/-- Modelled from the spec: the fixed per-operation payload template
(module `./payloads`, absent from src/).  Its fields are not observable to
the claims beyond being carried unchanged through the
`Object.assign({}, template, fields)` merge; one tag field stands for
them. -/
structure PayloadTemplate where
  operation : String
deriving DecidableEq

/-- Modelled from the spec: the fixed `SIGNTX` operation template. -/
def PAYLOAD_SIGNTX : PayloadTemplate := ⟨"SIGNTX"⟩

/-- Modelled from the spec: the fixed `SIGNMSG` operation template. -/
def PAYLOAD_SIGNMSG : PayloadTemplate := ⟨"SIGNMSG"⟩

/-- Modelled from the spec: the fixed `VERIFYMSG` operation template. -/
def PAYLOAD_VERIFYMSG : PayloadTemplate := ⟨"VERIFYMSG"⟩

/-- The payload dispatched by the hardware-path `signTransaction`:
the `SIGNTX` template merged with the transaction fields
(`Object.assign({}, PAYLOAD_SIGNTX, {...})`). -/
structure SignTxPayload where
  base : PayloadTemplate
  address_n : List Nat
  gas_price : String
  gas_limit : String
  chain_id : Int
  nonce : String
  «to» : String
  value : String
  data : String
deriving DecidableEq

/-- The `{ r, s, v }` signature components a device resolves a signing
request with. -/
structure SignedTx where
  r : String
  s : String
  v : Nat
deriving DecidableEq

/-- Argument object of the hardware-path `signTransaction`
(`TransactionObjectType`): `gasPrice` and `nonce` carry destructuring
defaults in the source, so absent values are representable. -/
structure HWTxInput where
  path : String
  gasPrice : Option Int
  gasLimit : String
  chainId : Int
  nonce : Option Int
  «to» : String
  value : String
  data : String
deriving DecidableEq

/-- The destructuring default of `gasPrice`: `bigNumber(10).toGwei()`,
ten gigawei in wei. -/
def defaultGasPrice : Int := 10 * 10 ^ 9

/-- `gasPrice` after the destructuring default is applied. -/
def effectiveGasPrice (i : HWTxInput) : Int :=
  i.gasPrice.getD defaultGasPrice

/-- `nonce` after the destructuring default (`nonce = 0`) is applied. -/
def effectiveNonce (i : HWTxInput) : Int :=
  i.nonce.getD 0

/-- The `modifiedPayloadObject` of the hardware-path `signTransaction`:
the `SIGNTX` template merged with the derivation path as an integer path
array, the even-padded unprefixed hex renderings of gas price and nonce
(`.toString(16)` then `multipleOfTwoHexValueNormalizer`), and the
remaining fields verbatim. -/
def buildSignTxPayload (i : HWTxInput) : SignTxPayload where
  base := PAYLOAD_SIGNTX
  address_n :=
    (parseDerivationPath (derivationPathNormalizer i.path)).getD []
  gas_price :=
    multipleOfTwoHexValueNormalizer (natToHex (effectiveGasPrice i).toNat)
  gas_limit := i.gasLimit
  chain_id := i.chainId
  nonce :=
    multipleOfTwoHexValueNormalizer (natToHex (effectiveNonce i).toNat)
  «to» := i.«to»
  value := i.value
  data := i.data

/-- Failure surfaced by a hardware-path static method: a validator threw,
or a device rejection propagated uncaught. -/
inductive HWError where
  | validation (field : String)
  | device (error : DeviceError)
deriving DecidableEq

/-- Observable outcome of one hardware-path `signTransaction` call:
the settled value (`Except.error` = the returned promise rejects,
`Except.ok none` = it resolves with `undefined`), the payload dispatched
to the device channel if any, and whether the cancellation warning was
logged. -/
structure HWSignTxOutcome where
  result : Except HWError (Option SignedTx)
  dispatched : Option SignTxPayload
  warned : Bool
deriving DecidableEq

/-- The hardware-path `signTransaction` (second document of
`src/src/software/staticMethods.js`): validates path, gas price, chain id
and nonce in order (each throws out of the call), builds the merged
payload, dispatches it, and wraps only the dispatch in `try/catch`; the
catch logs a warning when the rejection message equals the cancellation
sentinel and returns `undefined` in all caught cases. -/
def signTransactionHW (i : HWTxInput)
    (device : SignTxPayload → DeviceResult SignedTx) : HWSignTxOutcome :=
  if derivationPathValid i.path then
    if bigNumberValid (effectiveGasPrice i) then
      if safeIntegerValid i.chainId then
        if safeIntegerValid (effectiveNonce i) then
          let payload := buildSignTxPayload i
          match device payload with
          | .resolve tx => ⟨.ok (some tx), some payload, false⟩
          | .reject e =>
            ⟨.ok none, some payload, decide (e.message = CANCEL_TX_SIGN)⟩
        else ⟨.error (.validation "nonce"), none, false⟩
      else ⟨.error (.validation "chainId"), none, false⟩
    else ⟨.error (.validation "gasPrice"), none, false⟩
  else ⟨.error (.validation "derivationPath"), none, false⟩

/-- Conjunction of the four validator checks the hardware-path
`signTransaction` runs before building its payload. -/
def hwInputValid (i : HWTxInput) : Bool :=
  derivationPathValid i.path && bigNumberValid (effectiveGasPrice i) &&
    safeIntegerValid i.chainId && safeIntegerValid (effectiveNonce i)

/-- The payload dispatched by the hardware-path `signMessage`: the
`SIGNMSG` template merged with the integer path array and the message. -/
structure SignMsgPayload where
  base : PayloadTemplate
  path : List Nat
  message : String
deriving DecidableEq

/-- The `{ signature }` object a device resolves a message-signing
request with. -/
structure MsgSignatureResponse where
  signature : String
deriving DecidableEq

/-- Payload built by the hardware-path `signMessage`. -/
def buildSignMsgPayload (path message : String) : SignMsgPayload where
  base := PAYLOAD_SIGNMSG
  path := (parseDerivationPath (derivationPathNormalizer path)).getD []
  message := message

/-- The hardware-path `signMessage`: validates the derivation path, then
awaits the device with no `try/catch` around the dispatch, destructuring
`signature` from the response; a device rejection therefore propagates to
the caller. -/
def signMessageHW (path message : String)
    (device : SignMsgPayload → DeviceResult MsgSignatureResponse) :
    Except HWError String :=
  if derivationPathValid path then
    match device (buildSignMsgPayload path message) with
    | .resolve r => .ok r.signature
    | .reject e => .error (.device e)
  else .error (.validation "derivationPath")

/- ### Hardware verifyMessage -/

/-- Modelled from the spec: `validateAddress` (ethers `getAddress`, an
external dependency): accepts a 40-hex-digit address with or without a
leading `0x` marker and returns the validated address, throwing otherwise.
Checksum-case formatting needs keccak and is outside this embedding; no
claim depends on the casing, so the accepted address is returned
unchanged. -/
def validateAddress (s : String) : Option String :=
  let core := stripHexTag s.data
  if core.length = 40 ∧ core.all (fun c => (hexCharVal c).isSome) then
    some s
  else none

/-- The payload dispatched by the hardware-path `verifyMessage`: the
`VERIFYMSG` template merged with the prefix-stripped address, the message
and the signature. -/
structure VerifyMsgPayload where
  base : PayloadTemplate
  address : String
  message : String
  signature : String
deriving DecidableEq

/-- The `{ success }` object a device resolves a verification request
with. -/
structure VerifyResponse where
  success : Bool
deriving DecidableEq

/-- Observable outcome of one hardware-path `verifyMessage` call. -/
structure VerifyMsgOutcome where
  result : Except HWError Bool
  dispatched : Option VerifyMsgPayload
deriving DecidableEq

/-- Payload built by the hardware-path `verifyMessage` from the validated
address (`substring(0, 2) === "0x" ? slice(2) : unchanged`). -/
def buildVerifyMsgPayload (validated message signature : String) :
    VerifyMsgPayload where
  base := PAYLOAD_VERIFYMSG
  address := ⟨stripHexTag validated.data⟩
  message := message
  signature := signature

/-- The hardware-path `verifyMessage`: validates the address, strips a
leading `0x` from the validated address, dispatches the merged payload and
resolves to the `success` flag destructured from the device response. -/
def verifyMessageHW (address message signature : String)
    (device : VerifyMsgPayload → DeviceResult VerifyResponse) :
    VerifyMsgOutcome :=
  match validateAddress address with
  | none => ⟨.error (.validation "address"), none⟩
  | some validated =>
    let payload := buildVerifyMsgPayload validated message signature
    match device payload with
    | .resolve r => ⟨.ok r.success, some payload⟩
    | .reject e => ⟨.error (.device e), some payload⟩

/- ### Software path -/

/-- Argument object of the software-path `signTransaction` (the rest
object after `callback` is split off); fields the transaction-object
validator defaults are representable as absent. -/
structure SWTxObject where
  gasPrice : Option Int
  gasLimit : Option Int
  chainId : Int
  nonce : Option Int
  «to» : String
  value : Option Int
  inputData : String
deriving DecidableEq

/-- The validated field set returned by the transaction-object
validator. -/
structure SWValidatedTx where
  gasPrice : Int
  gasLimit : Int
  chainId : Int
  nonce : Int
  «to» : String
  value : Int
  inputData : String
deriving DecidableEq

/-- Modelled from the spec: `transactionObjectValidator` (module
`../core/helpers`, absent from src/): "fails if required fields are
missing or structurally invalid; returns the validated field set
(defaults applied: absent nonce → 0, absent gasPrice → a fixed default)";
the fixed defaults are those of the software document's docstring
(gasPrice 9000000000 wei, gasLimit 21000, value 1). -/
def transactionObjectValidator (t : SWTxObject) :
    Except String SWValidatedTx :=
  let gasPrice := t.gasPrice.getD 9000000000
  let gasLimit := t.gasLimit.getD 21000
  let nonce := t.nonce.getD 0
  let value := t.value.getD 1
  if 0 ≤ gasPrice ∧ 0 ≤ gasLimit ∧ safeIntegerValid t.chainId ∧
      safeIntegerValid nonce ∧ (validateAddress t.«to»).isSome ∧
      0 ≤ value ∧ (stripHexTag t.inputData.data).all
        (fun c => (hexCharVal c).isSome) then
    .ok ⟨gasPrice, gasLimit, t.chainId, nonce, t.«to», value, t.inputData⟩
  else .error "transaction object validation"

/-- Modelled from the spec: `addressNormalizer` (module
`../core/normalizers`, absent from src/): "lower/upper-cases and
checksum-formats a hex address".  Checksum casing needs keccak and is
outside this embedding; no claim depends on it, so the validated address
passes through unchanged. -/
def addressNormalizer (s : String) : String := s

/-- The object the software-path `signTransaction` invokes its injected
signer callback with: validated fields, with the big-number values
round-tripped through `bigNumberify(x.toString())` (value-preserving), the
address normalized and the input data hex-normalized. -/
structure SWCallbackArg where
  gasPrice : Int
  gasLimit : Int
  chainId : Int
  nonce : Int
  «to» : String
  value : Int
  data : String
deriving DecidableEq

/-- Callback argument built by the software-path `signTransaction` from
the validated field set. -/
def swCallbackArg (v : SWValidatedTx) : SWCallbackArg where
  gasPrice := v.gasPrice
  gasLimit := v.gasLimit
  chainId := v.chainId
  nonce := v.nonce
  «to» := addressNormalizer v.«to»
  value := v.value
  data := hexSequenceNormalizer v.inputData

/-- Modelled from the spec: `messages.cannotSign` (module `./messages`,
absent from src/): the fixed cannot-sign message the software path puts in
front of the serialized transaction. -/
def cannotSign : String := "Cannot sign the transaction"

/-- String form of an optional integer field, `undefined` when absent, as
JavaScript string interpolation renders it. -/
def optIntStr : Option Int → String
  | none => "undefined"
  | some i => toString i

/-- Modelled from the spec: `objectToErrorString` (module `../core/utils`,
absent from src/): "a deterministic object-to-string routine" serializing
the offending transaction object for error messages; key-value pairs in
field order. -/
def objectToErrorString (t : SWTxObject) : String :=
  "gasPrice (" ++ optIntStr t.gasPrice ++ "), gasLimit (" ++
    optIntStr t.gasLimit ++ "), chainId (" ++ toString t.chainId ++
    "), nonce (" ++ optIntStr t.nonce ++ "), to (" ++ t.«to» ++
    "), value (" ++ optIntStr t.value ++ "), inputData (" ++
    t.inputData ++ ")"

/-- Failure surfaced by the software-path `signTransaction`: the validator
threw, or the callback threw and was wrapped into the domain error. -/
inductive SWError where
  | validation (message : String)
  | backend (message : String)
deriving DecidableEq

/-- The software-path `signTransaction` (first document of
`src/src/software/staticMethods.js`): validates the transaction object
(outside the `try`), invokes the callback with the converted fields, and
normalizes the returned hex string; a callback throw is wrapped as
`messages.cannotSign ++ " " ++ objectToErrorString(transactionObject) ++
" " ++ caughtError.message`. -/
def signTransactionSW (txo : SWTxObject)
    (callback : SWCallbackArg → Except DeviceError String) :
    Except SWError String :=
  match transactionObjectValidator txo with
  | .error e => .error (.validation e)
  | .ok v =>
    match callback (swCallbackArg v) with
    | .ok signed => .ok (hexSequenceNormalizer signed)
    | .error caughtError =>
      .error (.backend (cannotSign ++ " " ++ objectToErrorString txo ++
        " " ++ caughtError.message))

/- ### Software wallet blockie getter -/

/-- Observable outcome of one access of the software wallet's `blockie`
getter: the resolved value, whether the warning was logged, and whether
the icon-generation capability was invoked. -/
structure BlockieOutcome where
  result : Option String
  warned : Bool
  iconInvoked : Bool
deriving DecidableEq

/-- Modelled from the spec: the `SoftwareWallet` `blockie` getter (its
implementation is absent from src/; only its unit tests,
`src/unnamed/part_001`, are present): with no address set it resolves to
no value and logs a warning without invoking the icon-generation
capability; with an address set it resolves to the icon generator's output
for that address. -/
def blockieGetter (address : Option String)
    (create : String → String) : BlockieOutcome :=
  match address with
  | none => ⟨none, true, false⟩
  | some a => ⟨some (create a), false, true⟩

/- ### getRandomValues -/

/-- The randomness sources `getRandomValues` can select from: browser
webcrypto, Microsoft `msCrypto`, node `crypto.randomBytes`, or the
JavaScript fallback mapping over the array. -/
inductive RandomSource where
  | web
  | ms
  | node
  | jsFallback
deriving DecidableEq

/-- The environment `getRandomValues` probes, with each optional source
as an optional function, plus the per-element JavaScript fallback
generator (`Math.random`-based). -/
structure RandomEnv where
  webCrypto : Option (List Nat → List Nat)
  msCrypto : Option (List Nat → List Nat)
  nodeRandomBytes : Option (Nat → List Nat)
  jsRandom : Nat → Nat

/-- Modelled from the spec: the core `getRandomValues` util (its
implementation is absent from src/; only its unit tests,
`src/unnamed/part_000`, are present).  Per those tests it selects the
browser webcrypto method when available, otherwise the `msCrypto` method
when available, otherwise — the third test explicitly clears
`crypto.randomBytes` before exercising the map fallback — the node
`crypto.randomBytes` source when available, and only then the JavaScript
fallback that maps over the array.  The returned tag records the single
source invoked. -/
def getRandomValues (env : RandomEnv) (arr : List Nat) :
    List Nat × RandomSource :=
  match env.webCrypto with
  | some f => (f arr, .web)
  | none =>
    match env.msCrypto with
    | some f => (f arr, .ms)
    | none =>
      match env.nodeRandomBytes with
      | some randomBytes => (randomBytes arr.length, .node)
      | none => (arr.map env.jsRandom, .jsFallback)

/- ### Concrete example inputs for instantiation -/

/-- The hardened mark as a one-character string, for path literals. -/
def hardenedMarkStr : String := ⟨[hardenedMark]⟩

/-- A canonical example derivation path (BIP44, 44h/60h/0h/0/0). -/
def examplePath : String :=
  "m/44" ++ hardenedMarkStr ++ "/60" ++ hardenedMarkStr ++ "/0" ++
    hardenedMarkStr ++ "/0/0"

/-- An example hardware transaction input with all fields supplied. -/
def exampleHWTxInput : HWTxInput where
  path := examplePath
  gasPrice := some 20000000000
  gasLimit := "0x5208"
  chainId := 1
  nonce := some 300
  «to» := "0x3e1c3f1a6f7ca42031c5ff3a17c1a0a3b8c2e4d9"
  value := "0xde0b6b3a7640000"
  data := "0x"

/-- An example hardware transaction input leaving nonce and gas price to
their destructuring defaults. -/
def exampleDefaultedHWTxInput : HWTxInput where
  path := examplePath
  gasPrice := none
  gasLimit := "0x5208"
  chainId := 1
  nonce := none
  «to» := "0x3e1c3f1a6f7ca42031c5ff3a17c1a0a3b8c2e4d9"
  value := "0xde0b6b3a7640000"
  data := "0x"

/-- An example hardware transaction input whose derivation path fails the
validator. -/
def exampleInvalidHWTxInput : HWTxInput where
  path := "not-a-path"
  gasPrice := some 20000000000
  gasLimit := "0x5208"
  chainId := 1
  nonce := some 300
  «to» := "0x3e1c3f1a6f7ca42031c5ff3a17c1a0a3b8c2e4d9"
  value := "0xde0b6b3a7640000"
  data := "0x"

/-- A device channel that resolves every signing request. -/
def exampleResolveTxDevice : SignTxPayload → DeviceResult SignedTx :=
  fun _ => .resolve ⟨"r1", "s1", 27⟩

/-- A device channel that rejects every signing request with a
non-cancellation transport error. -/
def exampleRejectTxDevice : SignTxPayload → DeviceResult SignedTx :=
  fun _ => .reject ⟨"Transport malfunction"⟩

/-- A device channel that rejects every signing request with the
cancellation sentinel. -/
def exampleCancelTxDevice : SignTxPayload → DeviceResult SignedTx :=
  fun _ => .reject ⟨CANCEL_TX_SIGN⟩

/-- A message-signing device channel that rejects with the cancellation
sentinel. -/
def exampleMsgCancelDevice : SignMsgPayload → DeviceResult MsgSignatureResponse :=
  fun _ => .reject ⟨CANCEL_TX_SIGN⟩

/-- A verification device channel that resolves with success. -/
def exampleVerifyResolveDevice : VerifyMsgPayload → DeviceResult VerifyResponse :=
  fun _ => .resolve ⟨true⟩

/-- An example well-formed 0x-prefixed address. -/
def exampleAddress : String := "0xaaaaaaaaaaaaaaaaaaaaaaaaaaaaaaaaaaaaaaaa"

/-- An example software transaction object with all fields supplied. -/
def exampleSWTxObject : SWTxObject where
  gasPrice := some 9000000000
  gasLimit := some 21000
  chainId := 1
  nonce := some 0
  «to» := exampleAddress
  value := some 1
  inputData := "0x00"

/-- The validated field set of `exampleSWTxObject`. -/
def exampleSWValidated : SWValidatedTx where
  gasPrice := 9000000000
  gasLimit := 21000
  chainId := 1
  nonce := 0
  «to» := exampleAddress
  value := 1
  inputData := "0x00"

/-- A signer callback that throws `Error("boom")`. -/
def exampleBoomCallback : SWCallbackArg → Except DeviceError String :=
  fun _ => .error ⟨"boom"⟩

/-- A signer callback that returns an odd-digit-count hex string. -/
def exampleOkCallback : SWCallbackArg → Except DeviceError String :=
  fun _ => .ok "0xabc"

/-- An environment where only node `crypto.randomBytes` is available. -/
def exampleNodeRandomEnv : RandomEnv where
  webCrypto := none
  msCrypto := none
  nodeRandomBytes := some (fun n => List.replicate n 7)
  jsRandom := fun _ => 0

/-- An environment with no randomness source but the JS fallback. -/
def exampleFallbackRandomEnv : RandomEnv where
  webCrypto := none
  msCrypto := none
  nodeRandomBytes := none
  jsRandom := fun _ => 0

/- ### Helper lemmas: hexadecimal round-trips and shapes -/

/-- Accumulator parse distributes over list append. -/
theorem parseHexFrom_append (l1 l2 : List Char) :
    ∀ acc, parseHexFrom acc (l1 ++ l2) =
      (parseHexFrom acc l1).bind (fun a => parseHexFrom a l2) := by
  induction l1 with
  | nil => intro acc; simp [parseHexFrom]
  | cons c rest ih =>
    intro acc
    simp only [List.cons_append, parseHexFrom]
    cases hexCharVal c with
    | none => simp
    | some d => simp [ih]

/-- `Nat.digitChar` of a hexadecimal digit parses back to the digit. -/
theorem hexCharVal_digitChar (d : Nat) (hd : d < 16) :
    hexCharVal (Nat.digitChar d) = some d := by
  interval_cases d <;> decide

/-- Parsing the big-endian digits `Nat.toDigitsCore` accumulates in front
of `ds` yields the rendered value shifted into the accumulator. -/
theorem parseHexFrom_toDigitsCore (n : Nat) : ∀ fuel acc ds, n < fuel →
    ∃ k : Nat, parseHexFrom acc (Nat.toDigitsCore 16 fuel n ds) =
      parseHexFrom (acc * 16 ^ k + n) ds := by
  induction n using Nat.strong_induction_on with
  | _ n ih =>
    intro fuel acc ds hlt
    match fuel, hlt with
    | fuel + 1, _ =>
      rw [Nat.toDigitsCore]
      by_cases h0 : n / 16 = 0
      · have hn16 : n < 16 := by omega
        simp only [h0, if_true]
        refine ⟨1, ?_⟩
        rw [show n % 16 = n from Nat.mod_eq_of_lt hn16]
        simp [parseHexFrom, hexCharVal_digitChar n hn16, pow_one]
      · have hdivlt : n / 16 < n := Nat.div_lt_self (by omega) (by omega)
        have hfuel : n / 16 < fuel := by omega
        simp only [h0, if_false]
        obtain ⟨k1, hk1⟩ :=
          ih (n / 16) hdivlt fuel acc (Nat.digitChar (n % 16) :: ds) hfuel
        refine ⟨k1 + 1, ?_⟩
        rw [hk1]
        simp only [parseHexFrom,
          hexCharVal_digitChar _ (Nat.mod_lt n (by omega))]
        congr 1
        have hdm := Nat.div_add_mod n 16
        ring_nf
        omega

/-- The hex rendering of a natural number parses back to it. -/
theorem parseHexList_natToHexList (n : Nat) :
    parseHexList (natToHexList n) = some n := by
  obtain ⟨k, hk⟩ := parseHexFrom_toDigitsCore n (n + 1) 0 [] (Nat.lt_succ_self n)
  simpa [parseHexList, natToHexList, Nat.toDigits, parseHexFrom] using hk

/-- Every character `Nat.toDigitsCore` prepends is a hexadecimal digit. -/
theorem toDigitsCore_all_hex : ∀ fuel n (ds : List Char),
    (∀ c ∈ ds, (hexCharVal c).isSome) →
    ∀ c ∈ Nat.toDigitsCore 16 fuel n ds, (hexCharVal c).isSome := by
  intro fuel
  induction fuel with
  | zero => intro n ds hds; simpa [Nat.toDigitsCore] using hds
  | succ fuel ih =>
    intro n ds hds
    rw [Nat.toDigitsCore]
    have hdigit : (hexCharVal (Nat.digitChar (n % 16))).isSome := by
      rw [hexCharVal_digitChar _ (Nat.mod_lt n (by omega))]; rfl
    by_cases h0 : n / 16 = 0
    · simp only [h0, if_true]
      intro c hc
      rcases List.mem_cons.mp hc with rfl | hc
      · exact hdigit
      · exact hds c hc
    · simp only [h0, if_false]
      refine ih (n / 16) (Nat.digitChar (n % 16) :: ds) ?_
      intro c hc
      rcases List.mem_cons.mp hc with rfl | hc
      · exact hdigit
      · exact hds c hc

/-- Every character of the hex rendering is a hexadecimal digit. -/
theorem natToHexList_all_hex (n : Nat) :
    ∀ c ∈ natToHexList n, (hexCharVal c).isSome :=
  toDigitsCore_all_hex (n + 1) n [] (by simp)

/-- The even-padding normalizer always yields an even digit count. -/
theorem multipleOfTwoHexValue_length_even (l : List Char) :
    (multipleOfTwoHexValue l).length % 2 = 0 := by
  unfold multipleOfTwoHexValue
  by_cases h : l.length % 2 = 1 <;> simp [h] <;> omega

/-- The even-padding normalizer preserves the parsed value. -/
theorem parseHexList_multipleOfTwoHexValue (l : List Char) :
    parseHexList (multipleOfTwoHexValue l) = parseHexList l := by
  unfold multipleOfTwoHexValue
  by_cases h : l.length % 2 = 1 <;>
    simp [h, parseHexList, parseHexFrom, show hexCharVal '0' = some 0 by decide]

/-- The even-padding normalizer preserves being all-hexadecimal. -/
theorem multipleOfTwoHexValue_all_hex (l : List Char)
    (hl : ∀ c ∈ l, (hexCharVal c).isSome) :
    ∀ c ∈ multipleOfTwoHexValue l, (hexCharVal c).isSome := by
  unfold multipleOfTwoHexValue
  by_cases h : l.length % 2 = 1 <;> simp [h]
  · exact ⟨by decide, hl⟩
  · exact hl

/-- An all-hexadecimal character list cannot carry a `0x` marker. -/
theorem all_hex_no_tag (l : List Char)
    (hl : ∀ c ∈ l, (hexCharVal c).isSome) : ¬ (['0', 'x'] <+: l) := by
  rintro ⟨t, ht⟩
  have hx : ('x' : Char) ∈ l := by
    rw [← ht]; simp
  have := hl 'x' hx
  simp [show hexCharVal 'x' = none by decide] at this

/-- The `hexSeqBody` of any string has an even digit count. -/
theorem hexSeqBody_length_even (l : List Char) :
    (hexSeqBody l).length % 2 = 0 :=
  multipleOfTwoHexValue_length_even _

/-- The `hexSeqBody` of any string parses to the same value as its digits
after removing an existing `0x` marker. -/
theorem parseHexList_hexSeqBody (l : List Char) :
    parseHexList (hexSeqBody l) = parseHexList (stripHexTag l) :=
  parseHexList_multipleOfTwoHexValue _

/- ### Helper lemmas: hardware signTransaction control flow -/

/-- The four validator checks, unfolded. -/
theorem hwInputValid_iff (i : HWTxInput) :
    hwInputValid i = true ↔
      derivationPathValid i.path = true ∧
      bigNumberValid (effectiveGasPrice i) = true ∧
      safeIntegerValid i.chainId = true ∧
      safeIntegerValid (effectiveNonce i) = true := by
  simp [hwInputValid, Bool.and_eq_true, and_assoc]

/-- On validator-accepted input, the hardware `signTransaction` dispatches
the built payload and settles according to the device response. -/
theorem signTransactionHW_eq_of_valid (i : HWTxInput)
    (device : SignTxPayload → DeviceResult SignedTx)
    (h : hwInputValid i = true) :
    signTransactionHW i device =
      match device (buildSignTxPayload i) with
      | .resolve tx => ⟨.ok (some tx), some (buildSignTxPayload i), false⟩
      | .reject e =>
        ⟨.ok none, some (buildSignTxPayload i),
          decide (e.message = CANCEL_TX_SIGN)⟩ := by
  obtain ⟨h1, h2, h3, h4⟩ := (hwInputValid_iff i).mp h
  unfold signTransactionHW
  simp only [h1, h2, h3, h4, if_true]

/- ### Claim theorems -/

/-- Claim C1, counterexample: a device rejection whose message is not the
cancellation sentinel is not surfaced to the caller — the call still
resolves to `undefined` (with no warning), so "for every other rejection
the failure is propagated to the immediate caller" is false on the code. -/
theorem C1_counterexample :
    exampleRejectTxDevice (buildSignTxPayload exampleHWTxInput) =
      DeviceResult.reject ⟨"Transport malfunction"⟩ ∧
    "Transport malfunction" ≠ CANCEL_TX_SIGN ∧
    (signTransactionHW exampleHWTxInput exampleRejectTxDevice).result =
      Except.ok none ∧
    (signTransactionHW exampleHWTxInput exampleRejectTxDevice).warned =
      false := by
  refine ⟨rfl, by decide, by decide, by decide⟩

/-- Claim C1 (amended): for the hardware-path `signTransaction`, when the
device channel's promise rejects, the call always resolves to an empty
result (`undefined`); the warning is logged if and only if the rejection's
error message equals the defined cancellation sentinel, and no rejection
is propagated to the immediate caller. -/
theorem C1_theorem (i : HWTxInput)
    (device : SignTxPayload → DeviceResult SignedTx) (e : DeviceError)
    (h : hwInputValid i = true)
    (hd : device (buildSignTxPayload i) = .reject e) :
    (signTransactionHW i device).result = Except.ok none ∧
    ((signTransactionHW i device).warned = true ↔
      e.message = CANCEL_TX_SIGN) := by
  rw [signTransactionHW_eq_of_valid i device h, hd]
  simp

/-- Claim C1, witness: on a concrete valid input whose device rejects with
the cancellation sentinel, the call resolves to `undefined` and the
warning is logged. -/
theorem C1_witness :
    (signTransactionHW exampleHWTxInput exampleCancelTxDevice).result =
      Except.ok none ∧
    ((signTransactionHW exampleHWTxInput exampleCancelTxDevice).warned =
      true ↔ (DeviceError.mk CANCEL_TX_SIGN).message = CANCEL_TX_SIGN) :=
  C1_theorem exampleHWTxInput exampleCancelTxDevice ⟨CANCEL_TX_SIGN⟩
    (by decide) rfl

/-- Claim C5: when any of the four validators rejects the input, the
hardware-path `signTransaction` surfaces a validation error to the caller,
no payload is dispatched to the device channel, and the
cancellation-handling catch neither downgrades the error to an empty
result nor logs the warning. -/
theorem C5_theorem (i : HWTxInput)
    (device : SignTxPayload → DeviceResult SignedTx)
    (h : hwInputValid i = false) :
    (signTransactionHW i device).dispatched = none ∧
    (∃ f, (signTransactionHW i device).result =
      Except.error (HWError.validation f)) ∧
    (signTransactionHW i device).warned = false := by
  unfold signTransactionHW
  by_cases h1 : derivationPathValid i.path = true
  · by_cases h2 : bigNumberValid (effectiveGasPrice i) = true
    · by_cases h3 : safeIntegerValid i.chainId = true
      · by_cases h4 : safeIntegerValid (effectiveNonce i) = true
        · exact absurd ((hwInputValid_iff i).mpr ⟨h1, h2, h3, h4⟩)
            (by simp [h])
        · rw [if_pos h1, if_pos h2, if_pos h3, if_neg h4]
          exact ⟨rfl, ⟨"nonce", rfl⟩, rfl⟩
      · rw [if_pos h1, if_pos h2, if_neg h3]
        exact ⟨rfl, ⟨"chainId", rfl⟩, rfl⟩
    · rw [if_pos h1, if_neg h2]
      exact ⟨rfl, ⟨"gasPrice", rfl⟩, rfl⟩
  · rw [if_neg h1]
    exact ⟨rfl, ⟨"derivationPath", rfl⟩, rfl⟩

/-- Claim C5, witness: on a concrete input with a malformed derivation
path, nothing is dispatched, a validation error is surfaced, and the
warning is not logged. -/
theorem C5_witness :
    (signTransactionHW exampleInvalidHWTxInput exampleResolveTxDevice).dispatched =
      none ∧
    (signTransactionHW exampleInvalidHWTxInput exampleResolveTxDevice).warned =
      false :=
  ⟨(C5_theorem exampleInvalidHWTxInput exampleResolveTxDevice (by decide)).1,
   (C5_theorem exampleInvalidHWTxInput exampleResolveTxDevice (by decide)).2.2⟩

/-- Claim C9: the hardware-path `signMessage` wraps no error handling
around the device dispatch — every rejection from the device channel,
including one carrying the cancellation sentinel, propagates to the
caller; in contrast, on the same rejection the hardware-path
`signTransaction` resolves to an empty result. -/
theorem C9_theorem (path message : String)
    (device : SignMsgPayload → DeviceResult MsgSignatureResponse)
    (e : DeviceError) (h : derivationPathValid path = true)
    (hd : device (buildSignMsgPayload path message) = .reject e) :
    signMessageHW path message device =
      Except.error (HWError.device e) ∧
    ∀ (i : HWTxInput), hwInputValid i = true →
      (signTransactionHW i
        (fun _ => DeviceResult.reject e)).result = Except.ok none := by
  constructor
  · unfold signMessageHW
    simp only [h, if_true, hd]
  · intro i hi
    rw [signTransactionHW_eq_of_valid i _ hi]

/-- Claim C9, witness: on a concrete valid path, a device rejection
carrying the cancellation sentinel propagates out of `signMessage`, while
the same rejection makes `signTransaction` resolve to `undefined`. -/
theorem C9_witness :
    signMessageHW examplePath "hello" exampleMsgCancelDevice =
      Except.error (HWError.device ⟨CANCEL_TX_SIGN⟩) ∧
    (signTransactionHW exampleHWTxInput
      (fun _ => DeviceResult.reject ⟨CANCEL_TX_SIGN⟩)).result =
      Except.ok none := by
  have h := C9_theorem examplePath "hello" exampleMsgCancelDevice
    ⟨CANCEL_TX_SIGN⟩ (by decide) rfl
  exact ⟨h.1, h.2 exampleHWTxInput (by decide)⟩

/-- Claim C3: on validator-accepted input, the hardware-path
`signTransaction` dispatches the fixed `SIGNTX` template merged with the
normalized derivation path as an ordered integer path array under
`address_n`, the gas price and nonce as even-length, left-zero-padded,
unprefixed hex strings denoting those values, and the given chain id, to,
value, data and gas limit fields. -/
theorem C3_theorem (i : HWTxInput)
    (device : SignTxPayload → DeviceResult SignedTx)
    (h : hwInputValid i = true) :
    ∃ arr, parseDerivationPath (derivationPathNormalizer i.path) =
        some arr ∧
      (signTransactionHW i device).dispatched =
        some (buildSignTxPayload i) ∧
      (buildSignTxPayload i).base = PAYLOAD_SIGNTX ∧
      (buildSignTxPayload i).address_n = arr ∧
      (buildSignTxPayload i).gas_price.data.length % 2 = 0 ∧
      parseHexList (buildSignTxPayload i).gas_price.data =
        some (effectiveGasPrice i).toNat ∧
      ¬ (['0', 'x'] <+: (buildSignTxPayload i).gas_price.data) ∧
      (buildSignTxPayload i).nonce.data.length % 2 = 0 ∧
      parseHexList (buildSignTxPayload i).nonce.data =
        some (effectiveNonce i).toNat ∧
      ¬ (['0', 'x'] <+: (buildSignTxPayload i).nonce.data) ∧
      (buildSignTxPayload i).chain_id = i.chainId ∧
      (buildSignTxPayload i).«to» = i.«to» ∧
      (buildSignTxPayload i).value = i.value ∧
      (buildSignTxPayload i).data = i.data ∧
      (buildSignTxPayload i).gas_limit = i.gasLimit := by
  have h1 : derivationPathValid i.path = true := ((hwInputValid_iff i).mp h).1
  obtain ⟨arr, harr⟩ := Option.isSome_iff_exists.mp h1
  refine ⟨arr, harr, ?_, rfl, ?_, ?_, ?_, ?_, ?_, ?_, ?_, rfl, rfl, rfl,
    rfl, rfl⟩
  · rw [signTransactionHW_eq_of_valid i device h]
    cases device (buildSignTxPayload i) <;> rfl
  · show (buildSignTxPayload i).address_n = arr
    simp [buildSignTxPayload, derivationPathNormalizer, harr]
  · exact multipleOfTwoHexValue_length_even _
  · show parseHexList
      (multipleOfTwoHexValue (natToHexList (effectiveGasPrice i).toNat)) =
      some (effectiveGasPrice i).toNat
    rw [parseHexList_multipleOfTwoHexValue, parseHexList_natToHexList]
  · exact all_hex_no_tag _
      (multipleOfTwoHexValue_all_hex _ (natToHexList_all_hex _))
  · exact multipleOfTwoHexValue_length_even _
  · show parseHexList
      (multipleOfTwoHexValue (natToHexList (effectiveNonce i).toNat)) =
      some (effectiveNonce i).toNat
    rw [parseHexList_multipleOfTwoHexValue, parseHexList_natToHexList]
  · exact all_hex_no_tag _
      (multipleOfTwoHexValue_all_hex _ (natToHexList_all_hex _))

/-- Claim C3, witness: the concrete payload dispatched for the example
input carries the parsed path array and the even-length hex gas price
denoting the supplied value. -/
theorem C3_witness :
    (signTransactionHW exampleHWTxInput exampleResolveTxDevice).dispatched =
      some (buildSignTxPayload exampleHWTxInput) ∧
    parseHexList (buildSignTxPayload exampleHWTxInput).gas_price.data =
      some 20000000000 ∧
    (buildSignTxPayload exampleHWTxInput).nonce.data.length % 2 = 0 := by
  obtain ⟨arr, _, h2, _, _, _, h6, _, h8, _⟩ :=
    C3_theorem exampleHWTxInput exampleResolveTxDevice (by decide)
  exact ⟨h2, h6, h8⟩

/-- Claim C6: with the nonce field absent the value `0` is used for the
nonce, and with the gas price field absent the fixed default
(`bigNumber(10).toGwei()`, hex `02540be400` after padding) is used, while
all other supplied fields are carried into the dispatched payload
unchanged. -/
theorem C6_theorem (i : HWTxInput)
    (device : SignTxPayload → DeviceResult SignedTx)
    (h : hwInputValid i = true) :
    (i.nonce = none → effectiveNonce i = 0 ∧
      (buildSignTxPayload i).nonce = "00") ∧
    (i.gasPrice = none → effectiveGasPrice i = defaultGasPrice ∧
      (buildSignTxPayload i).gas_price = "02540be400") ∧
    (signTransactionHW i device).dispatched =
      some (buildSignTxPayload i) ∧
    (buildSignTxPayload i).«to» = i.«to» ∧
    (buildSignTxPayload i).value = i.value ∧
    (buildSignTxPayload i).data = i.data ∧
    (buildSignTxPayload i).chain_id = i.chainId ∧
    (buildSignTxPayload i).gas_limit = i.gasLimit := by
  refine ⟨?_, ?_, ?_, rfl, rfl, rfl, rfl, rfl⟩
  · intro hn
    constructor
    · simp [effectiveNonce, hn]
    · show multipleOfTwoHexValueNormalizer
        (natToHex (effectiveNonce i).toNat) = "00"
      simp only [effectiveNonce, hn, Option.getD_none]
      decide
  · intro hg
    constructor
    · simp [effectiveGasPrice, hg]
    · show multipleOfTwoHexValueNormalizer
        (natToHex (effectiveGasPrice i).toNat) = "02540be400"
      simp only [effectiveGasPrice, hg, Option.getD_none]
      decide
  · rw [signTransactionHW_eq_of_valid i device h]
    cases device (buildSignTxPayload i) <;> rfl

/-- Claim C6, witness: on a concrete input with nonce and gas price
absent, the dispatched payload carries nonce `"00"` and the padded hex of
the fixed default gas price, with the other fields unchanged. -/
theorem C6_witness :
    (buildSignTxPayload exampleDefaultedHWTxInput).nonce = "00" ∧
    (buildSignTxPayload exampleDefaultedHWTxInput).gas_price =
      "02540be400" ∧
    (signTransactionHW exampleDefaultedHWTxInput exampleResolveTxDevice).dispatched =
      some (buildSignTxPayload exampleDefaultedHWTxInput) := by
  have h := C6_theorem exampleDefaultedHWTxInput exampleResolveTxDevice
    (by decide)
  exact ⟨(h.1 rfl).2, (h.2.1 rfl).2, h.2.2.1⟩

/-- Claim C2: whenever the injected signer callback throws, the
software-path `signTransaction` surfaces a single domain (backend) error
whose message is the fixed cannot-sign message, followed by the
deterministic serialization of the offending transaction object, followed
by the original error's message — so the message has the fixed text as a
prefix, the serialization as an infix, and the original message as a
suffix. -/
theorem C2_theorem (txo : SWTxObject)
    (callback : SWCallbackArg → Except DeviceError String)
    (v : SWValidatedTx) (caughtError : DeviceError)
    (hv : transactionObjectValidator txo = .ok v)
    (hc : callback (swCallbackArg v) = .error caughtError) :
    signTransactionSW txo callback =
      Except.error (SWError.backend (cannotSign ++ " " ++
        objectToErrorString txo ++ " " ++ caughtError.message)) ∧
    cannotSign.data <+: (cannotSign ++ " " ++ objectToErrorString txo ++
      " " ++ caughtError.message).data ∧
    (objectToErrorString txo).data <:+: (cannotSign ++ " " ++
      objectToErrorString txo ++ " " ++ caughtError.message).data ∧
    caughtError.message.data <:+ (cannotSign ++ " " ++
      objectToErrorString txo ++ " " ++ caughtError.message).data := by
  have hdata : ∀ a b : String, (a ++ b).data = a.data ++ b.data :=
    fun _ _ => rfl
  refine ⟨?_, ?_, ?_, ?_⟩
  · unfold signTransactionSW
    rw [hv]
    simp only [hc]
  · refine ⟨" ".data ++ (objectToErrorString txo).data ++ " ".data ++
      caughtError.message.data, ?_⟩
    simp [hdata, List.append_assoc]
  · refine ⟨cannotSign.data ++ " ".data,
      " ".data ++ caughtError.message.data, ?_⟩
    simp [hdata, List.append_assoc]
  · refine ⟨(cannotSign ++ " " ++ objectToErrorString txo ++ " ").data, ?_⟩
    simp [hdata, List.append_assoc]

/-- Claim C2, witness: with the example transaction object and a callback
throwing `Error("boom")`, the surfaced backend error carries the fixed
text, the serialized object and `boom`. -/
theorem C2_witness :
    signTransactionSW exampleSWTxObject exampleBoomCallback =
      Except.error (SWError.backend (cannotSign ++ " " ++
        objectToErrorString exampleSWTxObject ++ " " ++ "boom")) ∧
    "boom".data <:+ (cannotSign ++ " " ++
      objectToErrorString exampleSWTxObject ++ " " ++ "boom").data := by
  have h := C2_theorem exampleSWTxObject exampleBoomCallback
    exampleSWValidated ⟨"boom"⟩ (by decide) rfl
  exact ⟨h.1, h.2.2.2⟩

/-- Claim C7: when the validator accepts and the callback returns
normally, the software-path `signTransaction` returns the callback's
result passed through the hex-sequence normalizer: a `0x`-prefixed string
whose digit part is even-length and parses to the same value as the
callback result's digits. -/
theorem C7_theorem (txo : SWTxObject)
    (callback : SWCallbackArg → Except DeviceError String)
    (v : SWValidatedTx) (signed : String)
    (hv : transactionObjectValidator txo = .ok v)
    (hc : callback (swCallbackArg v) = .ok signed) :
    signTransactionSW txo callback =
      Except.ok (hexSequenceNormalizer signed) ∧
    (hexSequenceNormalizer signed).data =
      '0' :: 'x' :: hexSeqBody signed.data ∧
    (hexSeqBody signed.data).length % 2 = 0 ∧
    parseHexList (hexSeqBody signed.data) =
      parseHexList (stripHexTag signed.data) := by
  refine ⟨?_, rfl, hexSeqBody_length_even _, parseHexList_hexSeqBody _⟩
  unfold signTransactionSW
  rw [hv]
  simp only [hc]

/-- Claim C7, witness: with the example object and a callback returning
the odd-digit hex string `0xabc`, the call returns `0x0abc`, whose digit
part is even-length and denotes the same value. -/
theorem C7_witness :
    signTransactionSW exampleSWTxObject exampleOkCallback =
      Except.ok (hexSequenceNormalizer "0xabc") ∧
    hexSequenceNormalizer "0xabc" = "0x0abc" ∧
    parseHexList (hexSeqBody "0xabc".data) =
      parseHexList (stripHexTag "0xabc".data) := by
  have h := C7_theorem exampleSWTxObject exampleOkCallback
    exampleSWValidated "0xabc" (by decide) rfl
  exact ⟨h.1, by decide, h.2.2.2⟩

/-- Claim C4: for every address accepted by the address validator, the
hardware-path `verifyMessage` dispatches a payload whose address field is
the validated address with a leading `0x` removed — and unchanged when no
such marker is present — and resolves to the `success` flag extracted from
the device response. -/
theorem C4_theorem (address message signature : String)
    (device : VerifyMsgPayload → DeviceResult VerifyResponse)
    (validated : String) (r : VerifyResponse)
    (hv : validateAddress address = some validated)
    (hd : device (buildVerifyMsgPayload validated message signature) =
      .resolve r) :
    (verifyMessageHW address message signature device).dispatched =
      some (buildVerifyMsgPayload validated message signature) ∧
    (buildVerifyMsgPayload validated message signature).address.data =
      stripHexTag validated.data ∧
    (validated.data.take 2 = ['0', 'x'] →
      (buildVerifyMsgPayload validated message signature).address.data =
        validated.data.drop 2) ∧
    (validated.data.take 2 ≠ ['0', 'x'] →
      (buildVerifyMsgPayload validated message signature).address =
        validated) ∧
    (verifyMessageHW address message signature device).result =
      Except.ok r.success := by
  refine ⟨?_, rfl, ?_, ?_, ?_⟩
  · unfold verifyMessageHW
    rw [hv]
    simp only [hd]
  · intro ht
    show stripHexTag validated.data = validated.data.drop 2
    unfold stripHexTag
    rw [if_pos ht]
  · intro ht
    show (⟨stripHexTag validated.data⟩ : String) = validated
    unfold stripHexTag
    rw [if_neg ht]
  · unfold verifyMessageHW
    rw [hv]
    simp only [hd]

/-- Claim C4, witness: for the concrete example address, the dispatched
payload carries the address without its `0x` marker and the call resolves
to the device's success flag. -/
theorem C4_witness :
    (verifyMessageHW exampleAddress "hello" "c2ln"
      exampleVerifyResolveDevice).dispatched =
      some (buildVerifyMsgPayload exampleAddress "hello" "c2ln") ∧
    (buildVerifyMsgPayload exampleAddress "hello" "c2ln").address =
      "aaaaaaaaaaaaaaaaaaaaaaaaaaaaaaaaaaaaaaaa" ∧
    (verifyMessageHW exampleAddress "hello" "c2ln"
      exampleVerifyResolveDevice).result = Except.ok true := by
  have h := C4_theorem exampleAddress "hello" "c2ln"
    exampleVerifyResolveDevice exampleAddress ⟨true⟩ (by decide) rfl
  exact ⟨h.1, by decide, h.2.2.2.2⟩

/-- Claim C8: accessing the software wallet's blockie when no address is
set resolves to no value and logs a warning, without throwing and without
invoking the icon-generation capability. -/
theorem C8_theorem (create : String → String) :
    blockieGetter none create =
      ⟨none, true, false⟩ := rfl

/-- Claim C10, counterexample: in an environment where the browser and
Microsoft sources are unavailable but node `crypto.randomBytes` is
available, `getRandomValues` does not fall through to the JavaScript
map-based fallback — a fourth source, absent from the claim's priority
list, is selected. -/
theorem C10_counterexample :
    (getRandomValues exampleNodeRandomEnv [1, 2, 3]).2 =
      RandomSource.node ∧
    RandomSource.node ≠ RandomSource.jsFallback ∧
    (getRandomValues exampleNodeRandomEnv [1, 2, 3]).1 ≠
      [1, 2, 3].map exampleNodeRandomEnv.jsRandom := by
  exact ⟨rfl, by decide, by decide⟩

/-- Claim C10 (amended): `getRandomValues` selects its randomness source
in the fixed priority order webcrypto, then `msCrypto`, then node
`crypto.randomBytes`, and only when all are unavailable the
JavaScript-based fallback that maps over the array; exactly one source is
selected (and invoked) per call. -/
theorem C10_theorem (env : RandomEnv) (arr : List Nat) :
    (getRandomValues env arr).2 =
      (if env.webCrypto.isSome then RandomSource.web
       else if env.msCrypto.isSome then RandomSource.ms
       else if env.nodeRandomBytes.isSome then RandomSource.node
       else RandomSource.jsFallback) ∧
    (env.webCrypto = none → env.msCrypto = none →
      env.nodeRandomBytes = none →
      getRandomValues env arr =
        (arr.map env.jsRandom, RandomSource.jsFallback)) := by
  constructor
  · cases hw : env.webCrypto <;> cases hm : env.msCrypto <;>
      cases hn : env.nodeRandomBytes <;>
      simp [getRandomValues, hw, hm, hn]
  · intro hw hm hn
    simp [getRandomValues, hw, hm, hn]

/-- Claim C10, witness: with no source available, the map-based fallback
produces the array image under the fallback generator. -/
theorem C10_witness :
    getRandomValues exampleFallbackRandomEnv [5, 6] =
      ([0, 0], RandomSource.jsFallback) := by
  have h := (C10_theorem exampleFallbackRandomEnv [5, 6]).2 rfl rfl rfl
  exact h
